import Mathlib

/-!
Verification of the content-builder front end (`streamlit_app.py`).

The file shallowly embeds the data model and the handler logic of the app:
conversation turns held in session state, the submit handler that calls the
backend gateway, the newest-to-oldest scan for the latest assistant metadata,
the artifact path resolution with its per-kind fallback convention, the
preview suppression on missing routing metadata, and the markdown pane
rendering.  Python dictionaries with optional fields are embedded as
structures of `Option` fields; Python truthiness of strings and dicts is made
explicit.
-/

namespace ContentBuilder

/-- Role of a conversation turn: the app only ever stores the two strings
`"user"` and `"assistant"` in the `role` field. -/
inductive Role where
  | user
  | assistant
deriving DecidableEq, Repr

/-- The `files` mapping optionally carried by the agent response metadata,
mapping the three logical artifact kinds to explicit relative paths
(read at lines 156-158 of the source). An absent key is `none`. -/
structure Files where
  markdown : Option String
  hero_image : Option String
  social_image : Option String
deriving DecidableEq, Repr

/-- The JSON object returned by the gateway (`data = resp.json()`), with the
five keys the app reads.  `otherKeys` records whether the dictionary holds
any further keys; it exists only to decide Python dict truthiness of the
whole object (`if not latest_meta`, line 143). -/
structure Meta where
  final_text : Option String
  response : Option String
  platform : Option String
  slug : Option String
  files : Option Files
  otherKeys : Bool
deriving DecidableEq, Repr

/-- A conversation turn as stored in `st.session_state.history`:
`{role, content, meta}` where `meta` is present only on successful
assistant turns. -/
structure Turn where
  role : Role
  content : String
  meta : Option Meta
deriving DecidableEq, Repr

/-- The session state owned by the app: `thread_id` (lines 33-34) and
`history` (lines 36-37). -/
structure Session where
  thread_id : String
  history : List Turn
deriving DecidableEq, Repr

/-- Python truthiness of an optional string: `None` and `""` are falsy,
every other string is truthy. -/
def pyTruthy : Option String → Bool
  | none => false
  | some s => s != ""

/-- Python `x or fb` where `x` is an optional string and `fb` a string:
the falsy values `None` and `""` fall through to the fallback
(lines 110 and 156-158 of the source). -/
def pyOr (x : Option String) (fb : String) : String :=
  match x with
  | none => fb
  | some s => if s = "" then fb else s

/-- Line 110: `assistant_text = data.get("final_text") or data.get("response") or ""`. -/
def assistantText (data : Meta) : String :=
  pyOr data.final_text (pyOr data.response "")

/-- Outcome of the gateway call `call_agent` (lines 88-95): either the parsed
JSON body of a successful round trip, or the string rendering of the raised
exception (timeout, transport error, or the `raise_for_status` of a
non-success HTTP status). -/
inductive GatewayResult where
  | success (data : Meta)
  | failure (errText : String)
deriving DecidableEq, Repr

/-- The submit handler (lines 101-119): append the user turn, then run the
gateway call; on success append an assistant turn carrying the parsed
response as metadata, on failure append an assistant turn with the error
string and no metadata.  The exception is swallowed, so the handler is a
total function on sessions. -/
def submit (s : Session) (task : String) (r : GatewayResult) : Session :=
  let s1 : Session :=
    { s with history := s.history ++ [{ role := .user, content := task, meta := none }] }
  match r with
  | .success data =>
      { s1 with history :=
          s1.history ++ [{ role := .assistant, content := assistantText data, meta := some data }] }
  | .failure e =>
      { s1 with history :=
          s1.history ++ [{ role := .assistant, content := "Error calling backend: " ++ e, meta := none }] }

/-- The "New conversation" action (lines 46-49): replace `thread_id` with a
freshly drawn UUID4 string and clear the history, in one handler.  The fresh
token is passed as an argument; the generator's uniqueness guarantee becomes
a hypothesis of the theorems. -/
def reset (_s : Session) (freshId : String) : Session :=
  { thread_id := freshId, history := [] }

/-- Python dict truthiness of a metadata object: an empty dictionary is
falsy (`if not latest_meta`, line 143). The dictionary is empty exactly when
the five read keys are absent and no other key is present. -/
def Meta.isFalsy (m : Meta) : Bool :=
  m.final_text.isNone && m.response.isNone && m.platform.isNone &&
    m.slug.isNone && m.files.isNone && !m.otherKeys

/-- The newest-to-oldest scan for the latest assistant metadata
(lines 136-141): walk the reversed history and take the `meta` of the first
turn whose role is assistant and whose `meta` is a dict. -/
def latestMeta (history : List Turn) : Option Meta :=
  (history.reverse.find? fun t => decide (t.role = Role.assistant) && t.meta.isSome).bind
    Turn.meta

/-- The resolved relative paths for the three artifact kinds
(`md_rel`, `hero_rel`, `social_rel`, lines 156-158). -/
structure ArtifactPathTriple where
  markdown_path : String
  hero_image_path : String
  social_image_path : String
deriving DecidableEq, Repr

/-- Line 149: `files = latest_meta.get("files") or {}`.  Substituting the
empty mapping for a falsy value is observationally the identity on lookups,
so only absence needs the default. -/
def getFiles (m : Meta) : Files :=
  m.files.getD ⟨none, none, none⟩

/-- The path resolution of lines 147-158: require truthy `platform` and
`slug` (else the preview section stops with `none`), then per artifact kind
prefer the explicit `files` entry and otherwise fall back to the naming
convention. -/
def resolve (m : Meta) : Option ArtifactPathTriple :=
  if pyTruthy m.platform && pyTruthy m.slug then
    let platform := m.platform.getD ""
    let slug := m.slug.getD ""
    let files := getFiles m
    some
      { markdown_path := pyOr files.markdown (platform ++ "/" ++ slug ++ "/post.md")
        hero_image_path := pyOr files.hero_image ("blogs/" ++ slug ++ "/hero.png")
        social_image_path := pyOr files.social_image (platform ++ "/" ++ slug ++ "/image.png") }
  else none

/-- What the preview section (lines 136-162) does before any fetch: stop with
the "Run the agent once" notice when no metadata was found or the found dict
is falsy (lines 143-145), stop with the "No platform/slug" notice when
routing is missing (lines 151-153), otherwise proceed to the preview of a
resolved path triple. -/
inductive PreviewOutcome where
  | noMetaNotice
  | noRoutingNotice
  | preview (paths : ArtifactPathTriple)
deriving DecidableEq, Repr

/-- The preview section control flow of lines 136-158 as a function of the
history. -/
def previewStage (history : List Turn) : PreviewOutcome :=
  match latestMeta history with
  | none => .noMetaNotice
  | some m =>
      if m.isFalsy then .noMetaNotice
      else
        match resolve m with
        | none => .noRoutingNotice
        | some p => .preview p

/-- Whether the preview section ended in a single informational notice
instead of a preview. -/
def PreviewOutcome.isInfoNotice : PreviewOutcome → Bool
  | .preview _ => false
  | _ => true

/-- The relative paths the preview section fetches, in source order:
markdown (line 172), hero image (line 185), social image (line 195).  When
the section stopped at a notice, no fetch is attempted. -/
def fetchRequests (history : List Turn) : List String :=
  match previewStage history with
  | .preview p => [p.markdown_path, p.hero_image_path, p.social_image_path]
  | _ => []

/-- The artifact path triple the render derives from the history; it is
recomputed from scratch on every render, never stored. -/
def renderPaths (history : List Turn) : Option ArtifactPathTriple :=
  (latestMeta history).bind resolve

/-- ASCII whitespace as stripped by Python `str.strip()`. -/
def isPySpace (c : Char) : Bool :=
  c = ' ' || c = '\t' || c = '\n' || c = '\r' || c = '\x0b' || c = '\x0c'

/-- Truthiness of `s.strip()` in Python: the stripped string is non-empty
exactly when some character of `s` is not whitespace. -/
def strippedNonempty (s : String) : Bool :=
  s.data.any fun c => !(isPySpace c)

/-- What the markdown pane shows: either the fetched markdown rendered as
formatted text, or an informational notice. -/
inductive MdPane where
  | rendered (text : String)
  | info (msg : String)
deriving DecidableEq, Repr

/-- Result of a `requests.get`: a status code and body, or a raised
transport exception rendered as a string. -/
inductive FetchResult where
  | ok (status : Nat) (body : String)
  | err (msg : String)
deriving DecidableEq, Repr

/-- The markdown pane logic of lines 171-178: render the body when the
status is 200 and the stripped body is non-empty, otherwise show the
not-found notice; a raised exception shows the could-not-fetch notice. -/
def renderMarkdownPane : FetchResult → MdPane
  | .ok status body =>
      if status == 200 && strippedNonempty body then .rendered body
      else
        .info "Markdown not found yet. The agent may not have written the file (or wrote to a different OUTPUT_DIR)."
  | .err e => .info ("Could not fetch markdown: " ++ e)

/-- Whether the markdown pane rendered fetched content. -/
def MdPane.isRendered : MdPane → Bool
  | .rendered _ => true
  | .info _ => false

/-! ## Helper lemmas -/

/-- `find?` skips a leading block on which the predicate is everywhere false. -/
theorem find?_append_of_none {α : Type} (p : α → Bool) :
    ∀ (l1 l2 : List α), (∀ x ∈ l1, p x = false) → (l1 ++ l2).find? p = l2.find? p
  | [], _, _ => rfl
  | a :: l1, l2, h => by
      have ha : p a = false := h a (List.mem_cons_self a l1)
      rw [List.cons_append, List.find?_cons_of_neg _ (by simp [ha])]
      exact find?_append_of_none p l1 l2 fun x hx => h x (List.mem_cons_of_mem a hx)

/-- Characterization of `resolve` when platform and slug are truthy:
per-kind Python `or` of the explicit entry with the conventional fallback. -/
theorem resolve_eq_of_truthy {m : Meta} {p s : String}
    (hp : m.platform = some p) (hpn : p ≠ "")
    (hs : m.slug = some s) (hsn : s ≠ "") :
    resolve m = some
      { markdown_path := pyOr (getFiles m).markdown (p ++ "/" ++ s ++ "/post.md")
        hero_image_path := pyOr (getFiles m).hero_image ("blogs/" ++ s ++ "/hero.png")
        social_image_path := pyOr (getFiles m).social_image (p ++ "/" ++ s ++ "/image.png") } := by
  simp [resolve, pyTruthy, hp, hs, hpn, hsn]

/-- A falsy explicit entry (absent or the empty string) makes `pyOr` take the
fallback. -/
theorem pyOr_falsy {x : Option String} (fb : String) (h : x.getD "" = "") :
    pyOr x fb = fb := by
  cases x with
  | none => rfl
  | some s =>
      simp only [Option.getD] at h
      simp [pyOr, h]

/-- When the latest metadata resolves to no path triple, the preview section
ends in an informational notice and performs no fetch. -/
theorem previewStage_resolve_none {h : List Turn} {m : Meta}
    (hl : latestMeta h = some m) (hres : resolve m = none) :
    (previewStage h).isInfoNotice = true ∧ fetchRequests h = [] := by
  by_cases hf : m.isFalsy <;>
    simp [previewStage, fetchRequests, hl, hres, hf, PreviewOutcome.isInfoNotice]

/-! ## Concrete sample data for witnesses -/

/-- Metadata of spec property P4: explicit markdown override, platform
`"blogs"`, slug `"s"`. -/
def mP4 : Meta :=
  { final_text := none, response := none, platform := some "blogs", slug := some "s",
    files := some { markdown := some "x/y.md", hero_image := none, social_image := none },
    otherKeys := false }

/-- Metadata with a platform but no slug. -/
def mNoSlug : Meta :=
  { final_text := some "Done", response := none, platform := some "blogs", slug := none,
    files := none, otherKeys := false }

/-- A one-turn history ending in an assistant turn carrying `mNoSlug`. -/
def histNoSlug : List Turn :=
  [{ role := .assistant, content := "Done", meta := some mNoSlug }]

/-- Metadata with an empty `final_text` and a non-empty `response`. -/
def mResponseOnly : Meta :=
  { final_text := some "", response := some "hello", platform := none, slug := none,
    files := none, otherKeys := false }

/-- Metadata carried by an older assistant turn. -/
def mOlder : Meta :=
  { final_text := some "old", response := none, platform := some "tweets", slug := some "old-post",
    files := none, otherKeys := false }

/-- Metadata carried by the newest metadata-bearing assistant turn. -/
def mNewest : Meta :=
  { final_text := some "new", response := none, platform := some "linkedin", slug := some "ai-agents",
    files := none, otherKeys := false }

/-- The newest metadata-bearing assistant turn. -/
def tNewest : Turn :=
  { role := .assistant, content := "new", meta := some mNewest }

/-- History segment older than `tNewest`. -/
def histOlder : List Turn :=
  [{ role := .user, content := "q1", meta := none },
   { role := .assistant, content := "old", meta := some mOlder }]

/-- History segment newer than `tNewest`: a user turn and a metadata-free
assistant turn (a failure turn). -/
def histNewer : List Turn :=
  [{ role := .user, content := "q2", meta := none },
   { role := .assistant, content := "Error calling backend: boom", meta := none }]

/-- A prior session with a turn in its transcript. -/
def sPrior : Session :=
  { thread_id := "11111111-1111-1111-1111-111111111111",
    history := [{ role := .user, content := "hi", meta := none }] }

/-- Metadata whose explicit `files` entries are all falsy (empty string or
absent) while platform and slug are truthy. -/
def mEmptyFiles : Meta :=
  { final_text := none, response := none, platform := some "blogs", slug := some "s",
    files := some { markdown := some "", hero_image := none, social_image := some "" },
    otherKeys := false }

/-- Metadata whose platform is present but the empty string. -/
def mEmptyPlatform : Meta :=
  { final_text := some "hi", response := none, platform := some "", slug := some "s",
    files := none, otherKeys := false }

/-- A one-turn history ending in an assistant turn carrying `mEmptyPlatform`. -/
def histEmptyPlatform : List Turn :=
  [{ role := .assistant, content := "hi", meta := some mEmptyPlatform }]

/-! ## Claim theorems -/

/-- C1: for every metadata record containing a (truthy) platform and slug, the
resolved artifact path triple uses, independently per artifact kind, the
explicit `files` entry when present and non-empty, and otherwise the fallback
`"{platform}/{slug}/post.md"` for markdown, `"blogs/{slug}/hero.png"` for the
hero image and `"{platform}/{slug}/image.png"` for the social image; the P4
instance is checked in the witness. -/
theorem resolve_per_kind_precedence (m : Meta) (p s : String)
    (hp : m.platform = some p) (hpn : p ≠ "")
    (hs : m.slug = some s) (hsn : s ≠ "") :
    resolve m = some
      { markdown_path := pyOr (getFiles m).markdown (p ++ "/" ++ s ++ "/post.md")
        hero_image_path := pyOr (getFiles m).hero_image ("blogs/" ++ s ++ "/hero.png")
        social_image_path := pyOr (getFiles m).social_image (p ++ "/" ++ s ++ "/image.png") } :=
  resolve_eq_of_truthy hp hpn hs hsn

/-- Witness for C1, at the P4 instance: `files = {markdown: "x/y.md"}`,
`platform = "blogs"`, `slug = "s"` resolves to exactly the claimed triple. -/
theorem resolve_per_kind_precedence_witness :
    resolve mP4 = some
      { markdown_path := "x/y.md", hero_image_path := "blogs/s/hero.png",
        social_image_path := "blogs/s/image.png" } := by
  have h := resolve_per_kind_precedence mP4 "blogs" "s" rfl (by decide) rfl (by decide)
  rw [h]; rfl

/-- C2: a successful submission appends exactly two turns, in order a user
turn with the submitted text and an assistant turn whose metadata is the
gateway's returned structure; the prior transcript is preserved unchanged. -/
theorem submit_success_appends_pair (s : Session) (task : String) (d : Meta) :
    (submit s task (.success d)).history =
      s.history ++
        [{ role := .user, content := task, meta := none },
         { role := .assistant, content := assistantText d, meta := some d }] := by
  simp [submit]

/-- C3: a failed submission appends, after the user turn, exactly one
assistant turn with no metadata whose content is the human-readable error
string; the handler returns normally (it is a total function) and the prior
transcript is preserved unchanged. -/
theorem submit_failure_appends_error_turn (s : Session) (task e : String) :
    (submit s task (.failure e)).history =
      s.history ++
        [{ role := .user, content := task, meta := none },
         { role := .assistant, content := "Error calling backend: " ++ e, meta := none }] := by
  simp [submit]

/-- C4: when the latest metadata lacks a truthy platform or a truthy slug,
resolution yields `none`, the preview section ends in a single informational
notice, and no artifact fetch is attempted for any of the three kinds. -/
theorem missing_routing_suppresses_preview (h : List Turn) (m : Meta)
    (hl : latestMeta h = some m)
    (hmiss : pyTruthy m.platform = false ∨ pyTruthy m.slug = false) :
    resolve m = none ∧ (previewStage h).isInfoNotice = true ∧ fetchRequests h = [] := by
  have hres : resolve m = none := by
    rcases hmiss with hm | hm <;> simp [resolve, hm]
  have hs := previewStage_resolve_none hl hres
  exact ⟨hres, hs.1, hs.2⟩

/-- Witness for C4: a history whose latest metadata has no slug. -/
theorem missing_routing_suppresses_preview_witness :
    resolve mNoSlug = none ∧ (previewStage histNoSlug).isInfoNotice = true ∧
      fetchRequests histNoSlug = [] :=
  missing_routing_suppresses_preview histNoSlug mNoSlug rfl (Or.inr rfl)

/-- C5: the assistant turn's content is the first non-empty of `final_text`
then `response`, and the empty string when both are absent or empty. -/
theorem assistant_text_selection (m : Meta) :
    (∀ s task, ((submit s task (.success m)).history).getLast? =
        some { role := .assistant, content := assistantText m, meta := some m }) ∧
    (∀ t, m.final_text = some t → t ≠ "" → assistantText m = t) ∧
    (m.final_text.getD "" = "" →
      ∀ r, m.response = some r → r ≠ "" → assistantText m = r) ∧
    (m.final_text.getD "" = "" → m.response.getD "" = "" → assistantText m = "") := by
  refine ⟨?_, ?_, ?_, ?_⟩
  · intro s task
    simp [submit]
  · intro t ht htn
    simp [assistantText, pyOr, ht, htn]
  · intro hft r hr hrn
    cases hm : m.final_text with
    | none => simp [assistantText, pyOr, hm, hr, hrn]
    | some t =>
        have ht : t = "" := by simpa [hm] using hft
        simp [assistantText, pyOr, hm, ht, hr, hrn]
  · intro hft hrs
    cases hm : m.final_text with
    | none =>
        cases hr : m.response with
        | none => simp [assistantText, pyOr, hm, hr]
        | some r =>
            have : r = "" := by simpa [hr] using hrs
            simp [assistantText, pyOr, hm, hr, this]
    | some t =>
        have ht : t = "" := by simpa [hm] using hft
        cases hr : m.response with
        | none => simp [assistantText, pyOr, hm, hr, ht]
        | some r =>
            have : r = "" := by simpa [hr] using hrs
            simp [assistantText, pyOr, hm, hr, ht, this]

/-- Witness for C5: with `final_text = ""` and `response = "hello"`, the
selected content is `"hello"`, and it is what the appended assistant turn
carries. -/
theorem assistant_text_selection_witness :
    assistantText mResponseOnly = "hello" ∧
    ((submit { thread_id := "t", history := [] } "hi"
        (.success mResponseOnly)).history).getLast? =
      some { role := .assistant, content := assistantText mResponseOnly,
             meta := some mResponseOnly } := by
  have h := assistant_text_selection mResponseOnly
  exact ⟨h.2.2.1 rfl "hello" rfl (by decide), h.1 { thread_id := "t", history := [] } "hi"⟩

/-- C6: the render derives the path triple from the metadata of the most
recent assistant turn carrying metadata — scanning newest to oldest, skipping
turns without metadata — so no matter what metadata older turns carry, the
resolved paths come from that turn alone. -/
theorem latest_meta_governs_paths (hOld hNew : List Turn) (t : Turn)
    (hrole : t.role = Role.assistant) (hmeta : t.meta.isSome = true)
    (hskip : ∀ u ∈ hNew, u.role = Role.assistant → u.meta.isSome = false) :
    latestMeta (hOld ++ t :: hNew) = t.meta ∧
    renderPaths (hOld ++ t :: hNew) = t.meta.bind resolve := by
  have hrev : (hOld ++ t :: hNew).reverse = hNew.reverse ++ t :: hOld.reverse := by
    simp
  have hnone :
      ∀ u ∈ hNew.reverse, (decide (u.role = Role.assistant) && u.meta.isSome) = false := by
    intro u hu
    rcases Decidable.em (u.role = Role.assistant) with ha | ha
    · simp [ha, hskip u (List.mem_reverse.mp hu) ha]
    · simp [ha]
  have hfind : latestMeta (hOld ++ t :: hNew) = t.meta := by
    unfold latestMeta
    rw [hrev, find?_append_of_none _ _ _ hnone]
    simp [List.find?_cons, hrole, hmeta]
  exact ⟨hfind, by simp [renderPaths, hfind]⟩

/-- Witness for C6: with an older metadata-bearing assistant turn before
`tNewest` and a user turn plus a metadata-free failure turn after it, the
scan returns the metadata of `tNewest` and the paths derive from it. -/
theorem latest_meta_governs_paths_witness :
    latestMeta (histOlder ++ tNewest :: histNewer) = tNewest.meta ∧
    renderPaths (histOlder ++ tNewest :: histNewer) = tNewest.meta.bind resolve :=
  latest_meta_governs_paths histOlder histNewer tNewest rfl rfl (by decide)

/-- C7: the "new conversation" action, in one handler, replaces the thread
identifier with a freshly drawn token (distinct from the prior one, which is
the UUID4 generator's guarantee, taken as a hypothesis) and clears the
transcript to length 0. -/
theorem reset_fresh_and_clears (s : Session) (freshId : String)
    (h : freshId ≠ s.thread_id) :
    (reset s freshId).thread_id ≠ s.thread_id ∧ (reset s freshId).history = [] :=
  ⟨h, rfl⟩

/-- Witness for C7: resetting a concrete prior session with a fresh token. -/
theorem reset_fresh_and_clears_witness :
    (reset sPrior "22222222-2222-2222-2222-222222222222").thread_id ≠ sPrior.thread_id ∧
    (reset sPrior "22222222-2222-2222-2222-222222222222").history = [] :=
  reset_fresh_and_clears sPrior "22222222-2222-2222-2222-222222222222" (by decide)

/-- C8: with truthy platform and slug, a falsy explicit `files` entry —
absent, or present but the empty string — is ignored and the conventional
fallback is used for that kind; an absent or falsy `files` mapping behaves
as the empty mapping through `getFiles`. -/
theorem empty_explicit_path_falls_back (m : Meta) (p s : String)
    (hp : m.platform = some p) (hpn : p ≠ "")
    (hs : m.slug = some s) (hsn : s ≠ "") :
    ((getFiles m).markdown.getD "" = "" →
        (resolve m).map ArtifactPathTriple.markdown_path =
          some (p ++ "/" ++ s ++ "/post.md")) ∧
    ((getFiles m).hero_image.getD "" = "" →
        (resolve m).map ArtifactPathTriple.hero_image_path =
          some ("blogs/" ++ s ++ "/hero.png")) ∧
    ((getFiles m).social_image.getD "" = "" →
        (resolve m).map ArtifactPathTriple.social_image_path =
          some (p ++ "/" ++ s ++ "/image.png")) := by
  rw [resolve_eq_of_truthy hp hpn hs hsn]
  refine ⟨?_, ?_, ?_⟩ <;> intro hx <;> simp [pyOr_falsy _ hx]

/-- Witness for C8: all three explicit entries falsy (markdown and social
image map to the empty string, hero image absent), so all three kinds fall
back to the convention. -/
theorem empty_explicit_path_falls_back_witness :
    (resolve mEmptyFiles).map ArtifactPathTriple.markdown_path = some "blogs/s/post.md" ∧
    (resolve mEmptyFiles).map ArtifactPathTriple.hero_image_path = some "blogs/s/hero.png" ∧
    (resolve mEmptyFiles).map ArtifactPathTriple.social_image_path = some "blogs/s/image.png" := by
  have h := empty_explicit_path_falls_back mEmptyFiles "blogs" "s" rfl (by decide) rfl (by decide)
  exact ⟨h.1 rfl, h.2.1 rfl, h.2.2 rfl⟩

/-- C9: an empty-string platform or slug is treated exactly like an absent
one: resolution yields `none`, and any history whose latest metadata it is
ends the preview in an informational notice with no fetches. -/
theorem empty_platform_slug_suppresses (m : Meta)
    (hm : m.platform = some "" ∨ m.slug = some "") :
    resolve m = none ∧
    ∀ h, latestMeta h = some m →
      (previewStage h).isInfoNotice = true ∧ fetchRequests h = [] := by
  have hres : resolve m = none := by
    rcases hm with hm | hm <;> simp [resolve, pyTruthy, hm]
  exact ⟨hres, fun h hl => previewStage_resolve_none hl hres⟩

/-- Witness for C9: present-but-empty platform suppresses the preview. -/
theorem empty_platform_slug_suppresses_witness :
    resolve mEmptyPlatform = none ∧
    (previewStage histEmptyPlatform).isInfoNotice = true ∧
    fetchRequests histEmptyPlatform = [] := by
  have h := empty_platform_slug_suppresses mEmptyPlatform (Or.inl rfl)
  exact ⟨h.1, (h.2 histEmptyPlatform rfl).1, (h.2 histEmptyPlatform rfl).2⟩

/-- C10: a markdown fetch with status 200 and an empty or whitespace-only
body shows the not-found notice and renders nothing — the very same outcome
as any non-success status, and like a transport error no content is
rendered. -/
theorem empty_markdown_body_not_rendered (body : String)
    (hbody : strippedNonempty body = false) :
    (renderMarkdownPane (.ok 200 body)).isRendered = false ∧
    (∀ s b, s ≠ 200 → renderMarkdownPane (.ok s b) = renderMarkdownPane (.ok 200 body)) ∧
    (∀ e, (renderMarkdownPane (.err e)).isRendered = false) := by
  have h200 : renderMarkdownPane (.ok 200 body) =
      .info "Markdown not found yet. The agent may not have written the file (or wrote to a different OUTPUT_DIR)." := by
    simp [renderMarkdownPane, hbody]
  refine ⟨?_, ?_, ?_⟩
  · rw [h200]; rfl
  · intro s b hsne
    rw [h200]
    simp [renderMarkdownPane, Nat.beq_eq_true_eq, hsne]
  · intro e
    rfl

/-- Witness for C10: a whitespace-only 200 body gives the same pane as a 404,
and a transport error renders nothing. -/
theorem empty_markdown_body_not_rendered_witness :
    (renderMarkdownPane (.ok 200 "  \n")).isRendered = false ∧
    renderMarkdownPane (.ok 404 "ignored") = renderMarkdownPane (.ok 200 "  \n") ∧
    (renderMarkdownPane (.err "boom")).isRendered = false := by
  have h := empty_markdown_body_not_rendered "  \n" (by decide)
  exact ⟨h.1, h.2.1 404 "ignored" (by decide), h.2.2 "boom"⟩

end ContentBuilder
